import Mathlib

/-!
Verification development for a minimal OpenGL application host
(`src/lib.rs`, `src/support/app.rs`, `src/support/shader.rs`).

The event-driven runtime (`AppRunner` in `app.rs`) is embedded as a pure
state machine: `resumed` and `window_event` map a runner state and a
platform event to a new state together with the list of observable
operations issued (App hook calls, GPU calls, UI passes, presentation,
loop exit).  External collaborators (winit, egui, the GL driver) are
abstracted as parameters: the App's hooks are an `AppSpec`, the egui
input layer is a `UiModel`, and per-frame egui output and GL query
results arrive through small environment records.  The `Scene` lazy
projection logic of `lib.rs` is embedded over ℚ (f32 arithmetic is
modelled by exact rationals, keeping the exact comparison structure of
the code), and the shader link logic of `shader.rs` over an explicit GL
link-status environment.
-/

namespace GLApp

/-- Physical key codes relevant to the runtime: `Escape` is handled
specially in `window_event`; all other codes are ignored. -/
inductive KeyCode where
  | escape
  | otherKey
  deriving DecidableEq

/-- Platform window events dispatched to `AppRunner::window_event`. -/
inductive PlatformEvent where
  | closeRequested
  | resized (width height : Nat)
  | keyboardInput (key : KeyCode)
  | redrawRequested
  | otherEvent
  deriving DecidableEq

/-- Observable operations issued by the runtime, in program order.
App hook invocations, egui pass boundaries, GL calls, presentation,
redraw scheduling, overlay teardown and event-loop exit each get a
constructor; `logged s` records an `eprintln!` diagnostic line whose
message starts with `s`. -/
inductive Op where
  | appInit
  | appUpdate (dt : Nat)
  | appRender (t : Nat)
  | beginUiPass
  | appRenderUi
  | endUiPass
  | handlePlatformOutput
  | tessellate
  | setTexture (id : Nat)
  | disableScissor
  | paintPrimitives
  | freeTexture (id : Nat)
  | swapBuffers
  | requestRedraw
  | appCleanup
  | destroyOverlay
  | exitLoop
  | resizeSurface (w h : Nat)
  | setViewport (w h : Nat)
  | appOnResize (w h : Nat)
  | logged (msg : String)
  deriving DecidableEq

/-- The `App` trait of `app.rs`: six fallible hooks over an app state
`α`.  Each hook returns the successor state and `none` for `Ok(())` or
`some e` for `Err(e)`.  (`initializeApp` embeds the trait's
`initialize` method.) -/
structure AppSpec (α : Type) where
  initializeApp : α → α × Option String
  update : α → Nat → α × Option String
  render : α → Nat → α × Option String
  render_ui : α → α × Option String
  cleanup : α → α × Option String
  on_resize : α → Nat → Nat → α × Option String

/-- The egui input layer (`egui_winit::State`) over UI state `υ`:
`on_window_event` returns the updated state and the `consumed` flag;
`take_egui_input` and `handle_platform_output` mutate the state. -/
structure UiModel (υ : Type) where
  on_window_event : υ → PlatformEvent → υ × Bool
  take_egui_input : υ → υ
  handle_platform_output : υ → υ

/-- The texture deltas of egui's `FullOutput` for one frame:
`textures_set` the texture ids uploaded, `textures_free` the ids freed. -/
structure FullOutput where
  textures_set : List Nat
  textures_free : List Nat
  deriving DecidableEq

/-- Per-frame environment of a `RedrawRequested` handling: the current
instant, the window's inner size, the `FullOutput` produced by
`egui_ctx.end_pass()`, and whether `swap_buffers` fails. -/
structure FrameEnv where
  now : Nat
  winSize : Nat × Nat
  fullOutput : FullOutput
  swapErr : Option String

/-- Environment of the first `resumed` call: the created window's inner
size and the freshly constructed egui input state. -/
structure ResumeEnv (υ : Type) where
  winSize : Nat × Nat
  uiInit : υ

/-- The `AppRunner` state of `app.rs`: the lazily created window, GL
context, GL surface (with its pixel size), egui painter, egui input
state and egui context, plus the boxed app and the frame clock. -/
structure AppRunner (α υ : Type) where
  window : Option Unit
  gl_context : Bool
  gl_surface : Option (Nat × Nat)
  egui_glow : Bool
  egui_state : Option υ
  egui_ctx : Bool
  app : α
  start_time : Nat
  last_frame_time : Nat
  deriving DecidableEq

/-- `if let Err(error) = ... { eprintln!(...) }`: one logged line when
the hook returned an error, nothing otherwise. -/
def logIfErr (msg : String) (res : Option String) : List Op :=
  match res with
  | none => []
  | some _ => [Op.logged msg]

/-- The shared shutdown path of the `CloseRequested` and Escape-key arms
of `window_event`: `app.cleanup()` (error logged), `egui_glow.destroy()`,
`event_loop.exit()`. -/
def shutdown {α υ : Type} (spec : AppSpec α) (r : AppRunner α υ) :
    AppRunner α υ × List Op :=
  let cres := spec.cleanup r.app
  ({ r with app := cres.1 },
    Op.appCleanup :: (logIfErr "Cleanup error" cres.2
      ++ [Op.destroyOverlay, Op.exitLoop]))

/-- The `RedrawRequested` arm of `window_event`: advance the frame
clock, `app.update(delta_time)`, `app.render(time)`, take egui input and
begin the UI pass, `app.render_ui`, end the pass, handle platform
output, tessellate, upload the texture additions, disable scissor, paint
the primitives, free the texture removals, swap buffers (error logged),
request another redraw.  `st` is the egui input state after
`on_window_event`. -/
def redrawFrame {α υ : Type} (spec : AppSpec α) (ui : UiModel υ)
    (env : FrameEnv) (r : AppRunner α υ) (st : υ) :
    AppRunner α υ × List Op :=
  let dt := env.now - r.last_frame_time
  let t := env.now - r.start_time
  let ures := spec.update r.app dt
  let rres := spec.render ures.1 t
  let st1 := ui.take_egui_input st
  let uires := spec.render_ui rres.1
  let out := env.fullOutput
  let st2 := ui.handle_platform_output st1
  let setOps := out.textures_set.map Op.setTexture
  let freeOps := out.textures_free.map Op.freeTexture
  let swapOps :=
    if r.gl_surface.isSome = true ∧ r.gl_context = true then
      Op.swapBuffers :: logIfErr "Swap buffers error" env.swapErr
    else []
  ({ r with
      app := uires.1,
      egui_state := some st2,
      last_frame_time := env.now },
    Op.appUpdate dt :: (logIfErr "Update error" ures.2
      ++ Op.appRender t :: (logIfErr "Render error" rres.2
      ++ Op.beginUiPass :: Op.appRenderUi :: (logIfErr "UI render error" uires.2
      ++ Op.endUiPass :: Op.handlePlatformOutput :: Op.tessellate :: (setOps
      ++ Op.disableScissor :: Op.paintPrimitives :: (freeOps
      ++ swapOps ++ [Op.requestRedraw]))))))

/-- `AppRunner::window_event`: bail out unless the window and all three
egui fields exist, offer the event to the egui input layer, stop if it
was consumed, otherwise dispatch on the event: close request and Escape
run the shutdown path, a resize with a zero dimension is ignored, a
non-zero resize resizes the surface (when context and surface exist),
sets the viewport and calls `app.on_resize` (error logged), and a redraw
request runs the frame. -/
def window_event {α υ : Type} (spec : AppSpec α) (ui : UiModel υ)
    (env : FrameEnv) (r : AppRunner α υ) (event : PlatformEvent) :
    AppRunner α υ × List Op :=
  match r.window with
  | none => (r, [])
  | some _ =>
    match r.egui_state with
    | none => (r, [])
    | some st =>
      if r.egui_ctx = true ∧ r.egui_glow = true then
        let pr := ui.on_window_event st event
        let r1 : AppRunner α υ := { r with egui_state := some pr.1 }
        if pr.2 = true then (r1, [])
        else
          match event with
          | PlatformEvent.closeRequested => shutdown spec r1
          | PlatformEvent.keyboardInput k =>
            if k = KeyCode.escape then shutdown spec r1 else (r1, [])
          | PlatformEvent.resized w h =>
            if w = 0 ∨ h = 0 then (r1, [])
            else
              let step1 : AppRunner α υ × List Op :=
                if r1.gl_context = true ∧ r1.gl_surface.isSome = true then
                  ({ r1 with gl_surface := some (w, h) },
                    [Op.resizeSurface w h])
                else (r1, [])
              let ores := spec.on_resize step1.1.app w h
              ({ step1.1 with app := ores.1 },
                step1.2 ++ [Op.setViewport w h, Op.appOnResize w h]
                  ++ logIfErr "Resize error" ores.2)
          | PlatformEvent.redrawRequested => redrawFrame spec ui env r1 pr.1
          | PlatformEvent.otherEvent => (r1, [])
      else (r, [])

/-- `AppRunner::resumed`: return immediately when the window already
exists; otherwise create window, GL context, GL surface, egui painter,
egui state and egui context, call `app.initialize()` then
`app.on_resize(width, height)` (each error logged), and store all
fields. -/
def resumed {α υ : Type} (spec : AppSpec α) (env : ResumeEnv υ)
    (r : AppRunner α υ) : AppRunner α υ × List Op :=
  if r.window.isSome = true then (r, [])
  else
    let w := env.winSize.1
    let h := env.winSize.2
    let ires := spec.initializeApp r.app
    let ores := spec.on_resize ires.1 w h
    ({ r with
        window := some (),
        gl_context := true,
        gl_surface := some (w, h),
        egui_glow := true,
        egui_state := some env.uiInit,
        egui_ctx := true,
        app := ores.1 },
      Op.appInit :: (logIfErr "Initialization error" ires.2
        ++ Op.appOnResize w h :: logIfErr "Resize error" ores.2))

/-! ### Trace projections used to state ordering properties -/

/-- The five frame stages of the spec's ordering contract plus the
trailing redraw request. -/
inductive CoreStep where
  | update
  | render
  | uiPopulate
  | overlayPaint
  | present
  | redraw
  deriving DecidableEq

/-- Project an operation onto the frame-stage alphabet. -/
def coreStep : Op → Option CoreStep
  | Op.appUpdate _ => some CoreStep.update
  | Op.appRender _ => some CoreStep.render
  | Op.appRenderUi => some CoreStep.uiPopulate
  | Op.paintPrimitives => some CoreStep.overlayPaint
  | Op.swapBuffers => some CoreStep.present
  | Op.requestRedraw => some CoreStep.redraw
  | _ => none

/-- The texture-lifecycle alphabet: uploads, the paint call, frees. -/
inductive TexStep where
  | upload (id : Nat)
  | paint
  | free (id : Nat)
  deriving DecidableEq

/-- Project an operation onto the texture-lifecycle alphabet. -/
def texStep : Op → Option TexStep
  | Op.setTexture id => some (TexStep.upload id)
  | Op.paintPrimitives => some TexStep.paint
  | Op.freeTexture id => some (TexStep.free id)
  | _ => none

/-- The shutdown alphabet: cleanup, overlay destroy, loop exit. -/
inductive ShutdownStep where
  | cleanup
  | destroyOverlay
  | exitLoop
  deriving DecidableEq

/-- Project an operation onto the shutdown alphabet. -/
def shutdownStep : Op → Option ShutdownStep
  | Op.appCleanup => some ShutdownStep.cleanup
  | Op.destroyOverlay => some ShutdownStep.destroyOverlay
  | Op.exitLoop => some ShutdownStep.exitLoop
  | _ => none

/-- Project out the arguments of `app.on_resize` calls. -/
def onResizeArgs : Op → Option (Nat × Nat)
  | Op.appOnResize w h => some (w, h)
  | _ => none

/-- The startup alphabet: `app.initialize` and `app.on_resize`. -/
inductive LifeStep where
  | initStep
  | onResize (w h : Nat)
  deriving DecidableEq

/-- Project an operation onto the startup alphabet. -/
def lifeStep : Op → Option LifeStep
  | Op.appInit => some LifeStep.initStep
  | Op.appOnResize w h => some (LifeStep.onResize w h)
  | _ => none

/-! ### Scene (`src/lib.rs`): lazy projection over exact rationals

`f32` arithmetic is embedded as exact rational arithmetic: the aspect
ratio, the epsilon constant and the comparison structure of the code are
kept exactly; only the rounding of individual `f32` operations is
abstracted away. -/

/-- The arguments of the `nalgebra_glm::perspective_lh_zo` call of
`Scene::update_projection`: aspect ratio, vertical field of view in
degrees (converted to radians in the code), near and far planes. -/
structure ProjMatrix where
  aspect : ℚ
  fovyDeg : ℚ
  near : ℚ
  far : ℚ
  deriving DecidableEq

/-- The projection-relevant fields of `Scene`. -/
structure Scene where
  aspect_ratio : ℚ
  projection_dirty : Bool
  projection : ProjMatrix
  deriving DecidableEq

/-- `f32::EPSILON` = 2⁻²³, as an exact rational. -/
def f32Epsilon : ℚ := 1 / 2 ^ 23

/-- `width as f32 / height.max(1) as f32`. -/
def aspectRatioOf (width height : Nat) : ℚ :=
  (width : ℚ) / ((height.max 1 : Nat) : ℚ)

/-- `Scene::set_aspect_ratio`: store the new ratio and mark the
projection dirty only when the ratio moved by more than `f32::EPSILON`. -/
def set_aspect_ratio (s : Scene) (width height : Nat) : Scene :=
  let new_aspect_ratio := aspectRatioOf width height
  if |new_aspect_ratio - s.aspect_ratio| > f32Epsilon then
    { s with aspect_ratio := new_aspect_ratio, projection_dirty := true }
  else s

/-- `Scene::update_projection`: recompute the projection and clear the
dirty flag when dirty, otherwise do nothing.  The returned boolean
records whether a recomputation happened. -/
def update_projection (s : Scene) : Scene × Bool :=
  if s.projection_dirty = true then
    ({ s with
        projection := ⟨s.aspect_ratio, 80, 1 / 10, 1000⟩,
        projection_dirty := false },
      true)
  else (s, false)

/-- Run `update_projection` `n` times, counting recomputations. -/
def runUpdateProjection : Scene → Nat → Scene × Nat
  | s, 0 => (s, 0)
  | s, n + 1 =>
    let step := update_projection s
    let rest := runUpdateProjection step.1 n
    (rest.1, (if step.2 then 1 else 0) + rest.2)

/-! ### Shader program linking (`src/support/shader.rs`) -/

/-- The `ShaderProgram` state: the GL program id and the retained
intermediate shader ids pushed by `attach`. -/
structure ShaderProgram where
  id : Nat
  shader_ids : List Nat
  deriving DecidableEq

/-- `ShaderProgram::attach` after a successful compile: `AttachShader`
and push the shader id. -/
def attachShader (p : ShaderProgram) (shaderId : Nat) : ShaderProgram :=
  { p with shader_ids := p.shader_ids ++ [shaderId] }

/-- GL-reported link outcome: `LINK_STATUS` and, on failure, the
`INFO_LOG_LENGTH` / info-log text pair. -/
structure LinkEnv where
  linkStatus : Bool
  infoLogLen : Nat
  infoLog : String

/-- `ShaderProgram::check_link_status`: `Ok` when `LINK_STATUS` is set;
otherwise an error carrying the info log when its reported length is
positive, and a distinct no-error-message text when it is zero. -/
def check_link_status (env : LinkEnv) : Except String Unit :=
  if env.linkStatus = true then Except.ok ()
  else if env.infoLogLen > 0 then
    Except.error ("Shader program linking failed:\n" ++ env.infoLog)
  else Except.error "Shader program linking failed with no error message"

/-- `ShaderProgram::link`: `LinkProgram`, then `check_link_status?`
(early return on failure, deleting nothing), then `DeleteShader` on each
retained id and clear the list.  Returns the new program state, the list
of shader ids deleted, and the result. -/
def link (env : LinkEnv) (p : ShaderProgram) :
    ShaderProgram × List Nat × Except String Unit :=
  match check_link_status env with
  | Except.error e => (p, [], Except.error e)
  | Except.ok _ => ({ p with shader_ids := [] }, p.shader_ids, Except.ok ())

/-! ### Concrete instances used by the witness theorems -/

/-- An app whose hooks all succeed. -/
def okApp : AppSpec Unit where
  initializeApp := fun a => (a, none)
  update := fun a _ => (a, none)
  render := fun a _ => (a, none)
  render_ui := fun a => (a, none)
  cleanup := fun a => (a, none)
  on_resize := fun a _ _ => (a, none)

/-- An app whose hooks all fail. -/
def errApp : AppSpec Unit where
  initializeApp := fun a => (a, some "boom")
  update := fun a _ => (a, some "boom")
  render := fun a _ => (a, some "boom")
  render_ui := fun a => (a, some "boom")
  cleanup := fun a => (a, some "boom")
  on_resize := fun a _ _ => (a, some "boom")

/-- A UI layer that never consumes events. -/
def passUi : UiModel Unit where
  on_window_event := fun s _ => (s, false)
  take_egui_input := fun s => s
  handle_platform_output := fun s => s

/-- A UI layer that consumes every event. -/
def eatUi : UiModel Unit where
  on_window_event := fun s _ => (s, true)
  take_egui_input := fun s => s
  handle_platform_output := fun s => s

/-- A fully initialised runner state. -/
def readyRunner : AppRunner Unit Unit where
  window := some ()
  gl_context := true
  gl_surface := some (800, 600)
  egui_glow := true
  egui_state := some ()
  egui_ctx := true
  app := ()
  start_time := 0
  last_frame_time := 0

/-- The runner state before the first `resumed` call. -/
def freshRunner : AppRunner Unit Unit where
  window := none
  gl_context := false
  gl_surface := none
  egui_glow := false
  egui_state := none
  egui_ctx := false
  app := ()
  start_time := 0
  last_frame_time := 0

/-- A sample frame environment with two texture uploads and one free. -/
def sampleEnv : FrameEnv where
  now := 5
  winSize := (800, 600)
  fullOutput := { textures_set := [1, 2], textures_free := [3] }
  swapErr := none

/-- A sample resume environment. -/
def sampleResumeEnv : ResumeEnv Unit where
  winSize := (800, 600)
  uiInit := ()

/-! ### Helper lemmas on trace projections -/

/-- A projection that ignores log lines skips `logIfErr` output. -/
theorem filterMap_logIfErr {β : Type} (f : Op → Option β)
    (hf : ∀ s, f (Op.logged s) = none) (msg : String) (res : Option String) :
    (logIfErr msg res).filterMap f = [] := by
  cases res <;> simp [logIfErr, hf]

/-- A projection that ignores a constructor skips a mapped block. -/
theorem filterMap_map_none {β γ : Type} (f : Op → Option β) (g : γ → Op)
    (hf : ∀ x, f (g x) = none) (l : List γ) :
    (l.map g).filterMap f = [] := by
  induction l with
  | nil => rfl
  | cons a l ih => simp [hf, ih]

theorem coreStep_logIfErr (msg : String) (res : Option String) :
    (logIfErr msg res).filterMap coreStep = [] :=
  filterMap_logIfErr coreStep (fun _ => rfl) msg res

/-- Composed form of `filterMap_map_none`. -/
theorem filterMap_comp_none {β γ : Type} (f : Op → Option β) (g : γ → Op)
    (hf : ∀ x, f (g x) = none) (l : List γ) :
    l.filterMap (f ∘ g) = [] := by
  induction l with
  | nil => rfl
  | cons a l ih => simp [Function.comp, hf, ih]

theorem coreStep_setTexture (l : List Nat) :
    l.filterMap (coreStep ∘ Op.setTexture) = [] :=
  filterMap_comp_none coreStep Op.setTexture (fun _ => rfl) l

theorem coreStep_freeTexture (l : List Nat) :
    l.filterMap (coreStep ∘ Op.freeTexture) = [] :=
  filterMap_comp_none coreStep Op.freeTexture (fun _ => rfl) l

theorem texStep_logIfErr (msg : String) (res : Option String) :
    (logIfErr msg res).filterMap texStep = [] :=
  filterMap_logIfErr texStep (fun _ => rfl) msg res

theorem texStep_setTexture (l : List Nat) :
    l.filterMap (texStep ∘ Op.setTexture) = l.map TexStep.upload := by
  induction l with
  | nil => rfl
  | cons a l ih => simp [Function.comp, texStep, ih]

theorem texStep_freeTexture (l : List Nat) :
    l.filterMap (texStep ∘ Op.freeTexture) = l.map TexStep.free := by
  induction l with
  | nil => rfl
  | cons a l ih => simp [Function.comp, texStep, ih]

theorem shutdownStep_logIfErr (msg : String) (res : Option String) :
    (logIfErr msg res).filterMap shutdownStep = [] :=
  filterMap_logIfErr shutdownStep (fun _ => rfl) msg res

theorem onResizeArgs_logIfErr (msg : String) (res : Option String) :
    (logIfErr msg res).filterMap onResizeArgs = [] :=
  filterMap_logIfErr onResizeArgs (fun _ => rfl) msg res

theorem lifeStep_logIfErr (msg : String) (res : Option String) :
    (logIfErr msg res).filterMap lifeStep = [] :=
  filterMap_logIfErr lifeStep (fun _ => rfl) msg res

/-! ### Claims -/

/-- C1: within every handling of a redraw-requested event, the runtime
issues App.update, then App.render, then UI population (render_ui),
then overlay painting of the tessellated primitives, then presentation
(swap_buffers), in exactly this order with no step skipped or
reordered, and after presenting it requests another redraw. -/
theorem frame_order_c1 {α υ : Type} (spec : AppSpec α) (ui : UiModel υ)
    (env : FrameEnv) (r : AppRunner α υ) (st : υ)
    (hw : r.window = some ()) (hs : r.egui_state = some st)
    (hctx : r.egui_ctx = true) (hglow : r.egui_glow = true)
    (hcons : (ui.on_window_event st PlatformEvent.redrawRequested).2 = false)
    (hsurf : r.gl_surface.isSome = true) (hglc : r.gl_context = true) :
    ((window_event spec ui env r PlatformEvent.redrawRequested).2).filterMap
        coreStep
      = [CoreStep.update, CoreStep.render, CoreStep.uiPopulate,
          CoreStep.overlayPaint, CoreStep.present, CoreStep.redraw] := by
  simp only [window_event, hw, hs, hctx, hglow, hcons, and_self, if_true,
    Bool.false_eq_true, if_false, redrawFrame, hsurf, hglc]
  simp [List.filterMap_append, coreStep_logIfErr, coreStep_setTexture,
    coreStep_freeTexture, coreStep]

/-- Witness for C1 at a concrete runner, app, UI layer and frame. -/
theorem frame_order_c1_witness :
    readyRunner.window = some () ∧ readyRunner.egui_state = some () ∧
    readyRunner.egui_ctx = true ∧ readyRunner.egui_glow = true ∧
    (passUi.on_window_event () PlatformEvent.redrawRequested).2 = false ∧
    readyRunner.gl_surface.isSome = true ∧ readyRunner.gl_context = true ∧
    ((window_event okApp passUi sampleEnv readyRunner
        PlatformEvent.redrawRequested).2).filterMap coreStep
      = [CoreStep.update, CoreStep.render, CoreStep.uiPopulate,
          CoreStep.overlayPaint, CoreStep.present, CoreStep.redraw] :=
  ⟨rfl, rfl, rfl, rfl, rfl, rfl, rfl,
    frame_order_c1 okApp passUi sampleEnv readyRunner () rfl rfl rfl rfl
      rfl rfl rfl⟩

/-- C2: a resize event with a zero dimension neither resizes the
surface nor calls App.on_resize (the whole runner except the UI input
state is unchanged and no operation is issued); a resize with both
dimensions positive resizes the surface to exactly (w, h), updates the
viewport, and calls App.on_resize exactly once with exactly (w, h). -/
theorem resize_c2 {α υ : Type} (spec : AppSpec α) (ui : UiModel υ)
    (env : FrameEnv) (r : AppRunner α υ) (st : υ) (w h : Nat)
    (hw : r.window = some ()) (hs : r.egui_state = some st)
    (hctx : r.egui_ctx = true) (hglow : r.egui_glow = true)
    (hcons : (ui.on_window_event st (PlatformEvent.resized w h)).2 = false)
    (hsurf : r.gl_surface.isSome = true) (hglc : r.gl_context = true) :
    ((w = 0 ∨ h = 0) →
      window_event spec ui env r (PlatformEvent.resized w h)
        = ({ r with
              egui_state :=
                some (ui.on_window_event st (PlatformEvent.resized w h)).1 },
            []))
    ∧ (0 < w → 0 < h →
      (window_event spec ui env r (PlatformEvent.resized w h)).1.gl_surface
          = some (w, h)
      ∧ ((window_event spec ui env r (PlatformEvent.resized w h)).2).filterMap
            onResizeArgs
          = [(w, h)]
      ∧ Op.setViewport w h
          ∈ (window_event spec ui env r (PlatformEvent.resized w h)).2
      ∧ Op.resizeSurface w h
          ∈ (window_event spec ui env r (PlatformEvent.resized w h)).2) := by
  constructor
  · intro hz
    simp [window_event, hw, hs, hctx, hglow, hcons, hz]
  · intro hwpos hhpos
    have hz : ¬(w = 0 ∨ h = 0) := by omega
    simp [window_event, hw, hs, hctx, hglow, hcons, hz, hsurf, hglc,
      onResizeArgs_logIfErr, onResizeArgs]

/-- Witness for C2 at a concrete runner: the zero-size branch at
(0, 600) is covered by the amended-state equality and the positive
branch at (1024, 768). -/
theorem resize_c2_witness :
    readyRunner.window = some () ∧ readyRunner.egui_state = some () ∧
    readyRunner.egui_ctx = true ∧ readyRunner.egui_glow = true ∧
    (passUi.on_window_event () (PlatformEvent.resized 1024 768)).2 = false ∧
    readyRunner.gl_surface.isSome = true ∧ readyRunner.gl_context = true ∧
    (((1024 : Nat) = 0 ∨ (768 : Nat) = 0) →
      window_event okApp passUi sampleEnv readyRunner
          (PlatformEvent.resized 1024 768)
        = ({ readyRunner with
              egui_state :=
                some (passUi.on_window_event ()
                  (PlatformEvent.resized 1024 768)).1 },
            []))
    ∧ (0 < 1024 → 0 < 768 →
      (window_event okApp passUi sampleEnv readyRunner
          (PlatformEvent.resized 1024 768)).1.gl_surface = some (1024, 768)
      ∧ ((window_event okApp passUi sampleEnv readyRunner
            (PlatformEvent.resized 1024 768)).2).filterMap onResizeArgs
          = [(1024, 768)]
      ∧ Op.setViewport 1024 768
          ∈ (window_event okApp passUi sampleEnv readyRunner
              (PlatformEvent.resized 1024 768)).2
      ∧ Op.resizeSurface 1024 768
          ∈ (window_event okApp passUi sampleEnv readyRunner
              (PlatformEvent.resized 1024 768)).2) :=
  ⟨rfl, rfl, rfl, rfl, rfl, rfl, rfl,
    resize_c2 okApp passUi sampleEnv readyRunner () 1024 768 rfl rfl rfl rfl
      rfl rfl rfl⟩

/-- C3: an event the UI input layer reports as consumed receives no
further handling: the trace is empty (no App hook, no built-in close,
resize, key or redraw logic), and the runner state is unchanged except
for the UI input state. -/
theorem consumed_c3 {α υ : Type} (spec : AppSpec α) (ui : UiModel υ)
    (env : FrameEnv) (r : AppRunner α υ) (st : υ) (event : PlatformEvent)
    (hw : r.window = some ()) (hs : r.egui_state = some st)
    (hctx : r.egui_ctx = true) (hglow : r.egui_glow = true)
    (hcons : (ui.on_window_event st event).2 = true) :
    window_event spec ui env r event
      = ({ r with egui_state := some (ui.on_window_event st event).1 }, []) := by
  simp [window_event, hw, hs, hctx, hglow, hcons]

/-- Witness for C3: the consuming UI layer at a close-requested event. -/
theorem consumed_c3_witness :
    readyRunner.window = some () ∧ readyRunner.egui_state = some () ∧
    readyRunner.egui_ctx = true ∧ readyRunner.egui_glow = true ∧
    (eatUi.on_window_event () PlatformEvent.closeRequested).2 = true ∧
    window_event okApp eatUi sampleEnv readyRunner PlatformEvent.closeRequested
      = ({ readyRunner with
            egui_state :=
              some (eatUi.on_window_event () PlatformEvent.closeRequested).1 },
          []) :=
  ⟨rfl, rfl, rfl, rfl, rfl,
    consumed_c3 okApp eatUi sampleEnv readyRunner ()
      PlatformEvent.closeRequested rfl rfl rfl rfl rfl⟩

/-- C4: on a close-requested event or a non-consumed Escape key event,
the runtime calls App.cleanup exactly once, then destroys the overlay
compositor's GPU resources, then exits the event loop, in that strict
order; a cleanup error is additionally logged and does not prevent the
overlay destruction and the loop exit. -/
theorem shutdown_c4 {α υ : Type} (spec : AppSpec α) (ui : UiModel υ)
    (env : FrameEnv) (r : AppRunner α υ) (st : υ) (event : PlatformEvent)
    (hw : r.window = some ()) (hs : r.egui_state = some st)
    (hctx : r.egui_ctx = true) (hglow : r.egui_glow = true)
    (hcons : (ui.on_window_event st event).2 = false)
    (hev : event = PlatformEvent.closeRequested
      ∨ event = PlatformEvent.keyboardInput KeyCode.escape) :
    ((window_event spec ui env r event).2).filterMap shutdownStep
      = [ShutdownStep.cleanup, ShutdownStep.destroyOverlay,
          ShutdownStep.exitLoop]
    ∧ ((spec.cleanup r.app).2.isSome = true →
        Op.logged "Cleanup error" ∈ (window_event spec ui env r event).2) := by
  have key : ((shutdown spec { r with
        egui_state := some (ui.on_window_event st event).1 }).2).filterMap
          shutdownStep
        = [ShutdownStep.cleanup, ShutdownStep.destroyOverlay,
            ShutdownStep.exitLoop]
      ∧ ((spec.cleanup r.app).2.isSome = true →
          Op.logged "Cleanup error" ∈ (shutdown spec { r with
            egui_state := some (ui.on_window_event st event).1 }).2) := by
    constructor
    · simp [shutdown, shutdownStep_logIfErr, shutdownStep]
    · intro herr
      match hres : (spec.cleanup r.app).2 with
      | none => simp [hres] at herr
      | some m => simp [shutdown, logIfErr, hres]
  rcases hev with rfl | rfl
  · simpa [window_event, hw, hs, hctx, hglow, hcons] using key
  · simpa [window_event, hw, hs, hctx, hglow, hcons] using key

/-- Witness for C4: Escape key with a failing cleanup hook. -/
theorem shutdown_c4_witness :
    readyRunner.window = some () ∧ readyRunner.egui_state = some () ∧
    readyRunner.egui_ctx = true ∧ readyRunner.egui_glow = true ∧
    (passUi.on_window_event ()
      (PlatformEvent.keyboardInput KeyCode.escape)).2 = false ∧
    (PlatformEvent.keyboardInput KeyCode.escape = PlatformEvent.closeRequested
      ∨ PlatformEvent.keyboardInput KeyCode.escape
          = PlatformEvent.keyboardInput KeyCode.escape) ∧
    ((window_event errApp passUi sampleEnv readyRunner
        (PlatformEvent.keyboardInput KeyCode.escape)).2).filterMap shutdownStep
      = [ShutdownStep.cleanup, ShutdownStep.destroyOverlay,
          ShutdownStep.exitLoop]
    ∧ ((errApp.cleanup ()).2.isSome = true →
        Op.logged "Cleanup error"
          ∈ (window_event errApp passUi sampleEnv readyRunner
              (PlatformEvent.keyboardInput KeyCode.escape)).2) :=
  ⟨rfl, rfl, rfl, rfl, rfl, Or.inr rfl,
    shutdown_c4 errApp passUi sampleEnv readyRunner ()
      (PlatformEvent.keyboardInput KeyCode.escape) rfl rfl rfl rfl rfl
      (Or.inr rfl)⟩

/-- C5: within every frame, the texture-lifecycle operations of the
redraw trace are exactly the uploads of the texture-additions set, then
the single overlay paint, then the frees of the texture-removals set:
every upload happens before the paint and every free after it, so no
texture freed in a frame is freed before that frame's primitives are
painted. -/
theorem texture_lifecycle_c5 {α υ : Type} (spec : AppSpec α)
    (ui : UiModel υ) (env : FrameEnv) (r : AppRunner α υ) (st : υ)
    (hw : r.window = some ()) (hs : r.egui_state = some st)
    (hctx : r.egui_ctx = true) (hglow : r.egui_glow = true)
    (hcons : (ui.on_window_event st PlatformEvent.redrawRequested).2 = false)
    (hsurf : r.gl_surface.isSome = true) (hglc : r.gl_context = true) :
    ((window_event spec ui env r PlatformEvent.redrawRequested).2).filterMap
        texStep
      = env.fullOutput.textures_set.map TexStep.upload
          ++ TexStep.paint :: env.fullOutput.textures_free.map TexStep.free := by
  simp only [window_event, hw, hs, hctx, hglow, hcons, and_self, if_true,
    Bool.false_eq_true, if_false, redrawFrame, hsurf, hglc]
  simp [List.filterMap_append, texStep_logIfErr, texStep_setTexture,
    texStep_freeTexture, texStep]

/-- Witness for C5 at a concrete frame with uploads {1, 2} and free {3}. -/
theorem texture_lifecycle_c5_witness :
    readyRunner.window = some () ∧ readyRunner.egui_state = some () ∧
    readyRunner.egui_ctx = true ∧ readyRunner.egui_glow = true ∧
    (passUi.on_window_event () PlatformEvent.redrawRequested).2 = false ∧
    readyRunner.gl_surface.isSome = true ∧ readyRunner.gl_context = true ∧
    ((window_event okApp passUi sampleEnv readyRunner
        PlatformEvent.redrawRequested).2).filterMap texStep
      = sampleEnv.fullOutput.textures_set.map TexStep.upload
          ++ TexStep.paint
            :: sampleEnv.fullOutput.textures_free.map TexStep.free :=
  ⟨rfl, rfl, rfl, rfl, rfl, rfl, rfl,
    texture_lifecycle_c5 okApp passUi sampleEnv readyRunner () rfl rfl rfl
      rfl rfl rfl rfl⟩

/-- A clean scene is a fixed point of `update_projection` and no run of
it recomputes anything. -/
theorem runUpdateProjection_clean (t : Scene) (n : Nat)
    (h : t.projection_dirty = false) :
    runUpdateProjection t n = (t, 0) := by
  induction n with
  | zero => rfl
  | succ n ih => simp [runUpdateProjection, update_projection, h, ih]

/-- Any run of `update_projection` recomputes at most once. -/
theorem runUpdateProjection_le_one (t : Scene) (n : Nat) :
    (runUpdateProjection t n).2 ≤ 1 := by
  cases n with
  | zero => simp [runUpdateProjection]
  | succ n =>
    have hclean : (update_projection t).1.projection_dirty = false := by
      cases ht : t.projection_dirty <;> simp [update_projection, ht]
    have h0 := runUpdateProjection_clean (update_projection t).1 n hclean
    simp only [runUpdateProjection, h0]
    split <;> simp

/-- C6: two successive `set_aspect_ratio` calls whose ratios agree
within the epsilon tolerance lead to at most one projection
recomputation over any number of subsequent `update_projection` calls;
`set_aspect_ratio` changes nothing (in particular does not set the
dirty flag) when the new ratio is within the tolerance of the stored
one and stores the ratio and sets the flag when it is beyond it; and
`update_projection` recomputes exactly when the flag is set, clearing
it. -/
theorem scene_dirty_c6 (s t : Scene) (w1 h1 w2 h2 n w h : Nat)
    (_hsame : |aspectRatioOf w2 h2 - aspectRatioOf w1 h1| ≤ f32Epsilon) :
    (runUpdateProjection
        (set_aspect_ratio (set_aspect_ratio s w1 h1) w2 h2) n).2 ≤ 1
    ∧ (|aspectRatioOf w h - t.aspect_ratio| ≤ f32Epsilon →
        set_aspect_ratio t w h = t)
    ∧ (f32Epsilon < |aspectRatioOf w h - t.aspect_ratio| →
        set_aspect_ratio t w h
          = { t with
              aspect_ratio := aspectRatioOf w h,
              projection_dirty := true })
    ∧ (t.projection_dirty = false → update_projection t = (t, false))
    ∧ (t.projection_dirty = true →
        update_projection t
          = ({ t with
                projection := ⟨t.aspect_ratio, 80, 1 / 10, 1000⟩,
                projection_dirty := false },
              true)) := by
  refine ⟨runUpdateProjection_le_one _ n, ?_, ?_, ?_, ?_⟩
  · intro hclose
    simp [set_aspect_ratio, not_lt.mpr hclose]
  · intro hfar
    simp [set_aspect_ratio, hfar]
  · intro hclean
    simp [update_projection, hclean]
  · intro hdirty
    simp [update_projection, hdirty]

/-- Witness for C6: two resizes to the same size on an initially dirty
unit-aspect scene. -/
theorem scene_dirty_c6_witness :
    (|aspectRatioOf 400 300 - aspectRatioOf 400 300| ≤ f32Epsilon)
    ∧ ((runUpdateProjection
          (set_aspect_ratio
            (set_aspect_ratio ⟨1, true, ⟨1, 80, 1 / 10, 1000⟩⟩ 400 300)
            400 300) 7).2 ≤ 1
      ∧ (|aspectRatioOf 2 1
            - (⟨1, true, ⟨1, 80, 1 / 10, 1000⟩⟩ : Scene).aspect_ratio|
              ≤ f32Epsilon →
          set_aspect_ratio ⟨1, true, ⟨1, 80, 1 / 10, 1000⟩⟩ 2 1
            = ⟨1, true, ⟨1, 80, 1 / 10, 1000⟩⟩)
      ∧ (f32Epsilon < |aspectRatioOf 2 1
            - (⟨1, true, ⟨1, 80, 1 / 10, 1000⟩⟩ : Scene).aspect_ratio| →
          set_aspect_ratio ⟨1, true, ⟨1, 80, 1 / 10, 1000⟩⟩ 2 1
            = { (⟨1, true, ⟨1, 80, 1 / 10, 1000⟩⟩ : Scene) with
                aspect_ratio := aspectRatioOf 2 1,
                projection_dirty := true })
      ∧ ((⟨1, true, ⟨1, 80, 1 / 10, 1000⟩⟩ : Scene).projection_dirty = false →
          update_projection ⟨1, true, ⟨1, 80, 1 / 10, 1000⟩⟩
            = (⟨1, true, ⟨1, 80, 1 / 10, 1000⟩⟩, false))
      ∧ ((⟨1, true, ⟨1, 80, 1 / 10, 1000⟩⟩ : Scene).projection_dirty = true →
          update_projection ⟨1, true, ⟨1, 80, 1 / 10, 1000⟩⟩
            = ({ (⟨1, true, ⟨1, 80, 1 / 10, 1000⟩⟩ : Scene) with
                  projection :=
                    ⟨(⟨1, true, ⟨1, 80, 1 / 10, 1000⟩⟩ : Scene).aspect_ratio,
                      80, 1 / 10, 1000⟩,
                  projection_dirty := false },
                true))) :=
  ⟨by norm_num [f32Epsilon], scene_dirty_c6 ⟨1, true, ⟨1, 80, 1 / 10, 1000⟩⟩
    ⟨1, true, ⟨1, 80, 1 / 10, 1000⟩⟩ 400 300 400 300 7 2 1
    (by norm_num [f32Epsilon])⟩

/-- C10: `Scene::set_aspect_ratio` never divides by zero: the divisor
`height.max 1` is positive, the computed ratio times that divisor
recovers the width (so the division is by the clamped divisor), and a
zero height behaves exactly like height 1. -/
theorem aspect_total_c10 (s : Scene) (w h : Nat) :
    (0 : ℚ) < ((h.max 1 : Nat) : ℚ)
    ∧ aspectRatioOf w h * ((h.max 1 : Nat) : ℚ) = (w : ℚ)
    ∧ set_aspect_ratio s w 0 = set_aspect_ratio s w 1 := by
  have hpos : 0 < h.max 1 := Nat.lt_of_lt_of_le Nat.zero_lt_one
    (Nat.le_max_right h 1)
  have hcast : (0 : ℚ) < ((h.max 1 : Nat) : ℚ) := by exact_mod_cast hpos
  refine ⟨hcast, ?_, rfl⟩
  exact div_mul_cancel₀ _ (ne_of_gt hcast)

/-- C7: every App hook error is logged and execution continues: within a
redraw, an error of update, render or render_ui produces a log line
while the remaining frame steps (paint, present, redraw request) still
run and the loop is not exited; within a resize, an on_resize error is
logged; within startup, an initialize error is logged and the run
proceeds (the window is still created and on_resize is still called). -/
theorem hook_errors_c7 {α υ : Type} (spec : AppSpec α) (ui : UiModel υ)
    (env : FrameEnv) (renv : ResumeEnv υ) (r r0 : AppRunner α υ) (st : υ)
    (w h : Nat)
    (hw : r.window = some ()) (hs : r.egui_state = some st)
    (hctx : r.egui_ctx = true) (hglow : r.egui_glow = true)
    (hcons : ∀ ev, (ui.on_window_event st ev).2 = false)
    (hsurf : r.gl_surface.isSome = true) (hglc : r.gl_context = true)
    (hwz : w ≠ 0) (hhz : h ≠ 0) (hw0 : r0.window = none) :
    (((spec.update r.app (env.now - r.last_frame_time)).2.isSome = true →
        Op.logged "Update error"
          ∈ (window_event spec ui env r PlatformEvent.redrawRequested).2)
      ∧ ((spec.render (spec.update r.app (env.now - r.last_frame_time)).1
            (env.now - r.start_time)).2.isSome = true →
        Op.logged "Render error"
          ∈ (window_event spec ui env r PlatformEvent.redrawRequested).2)
      ∧ ((spec.render_ui
            (spec.render (spec.update r.app (env.now - r.last_frame_time)).1
              (env.now - r.start_time)).1).2.isSome = true →
        Op.logged "UI render error"
          ∈ (window_event spec ui env r PlatformEvent.redrawRequested).2)
      ∧ Op.exitLoop
          ∉ (window_event spec ui env r PlatformEvent.redrawRequested).2
      ∧ Op.paintPrimitives
          ∈ (window_event spec ui env r PlatformEvent.redrawRequested).2
      ∧ Op.swapBuffers
          ∈ (window_event spec ui env r PlatformEvent.redrawRequested).2
      ∧ Op.requestRedraw
          ∈ (window_event spec ui env r PlatformEvent.redrawRequested).2)
    ∧ ((spec.on_resize r.app w h).2.isSome = true →
        Op.logged "Resize error"
          ∈ (window_event spec ui env r (PlatformEvent.resized w h)).2)
    ∧ (((spec.initializeApp r0.app).2.isSome = true →
        Op.logged "Initialization error" ∈ (resumed spec renv r0).2)
      ∧ Op.appOnResize renv.winSize.1 renv.winSize.2
          ∈ (resumed spec renv r0).2
      ∧ (resumed spec renv r0).1.window = some ()) := by
  refine ⟨⟨?_, ?_, ?_, ?_, ?_, ?_, ?_⟩, ?_, ?_, ?_, ?_⟩
  · intro herr
    match hres : (spec.update r.app (env.now - r.last_frame_time)).2 with
    | none => simp [hres] at herr
    | some m =>
      simp [window_event, hw, hs, hctx, hglow, hcons, redrawFrame, logIfErr,
        hres]
  · intro herr
    match hres : (spec.render (spec.update r.app
        (env.now - r.last_frame_time)).1 (env.now - r.start_time)).2 with
    | none => simp [hres] at herr
    | some m =>
      simp [window_event, hw, hs, hctx, hglow, hcons, redrawFrame, logIfErr,
        hres]
  · intro herr
    match hres : (spec.render_ui
        (spec.render (spec.update r.app (env.now - r.last_frame_time)).1
          (env.now - r.start_time)).1).2 with
    | none => simp [hres] at herr
    | some m =>
      simp [window_event, hw, hs, hctx, hglow, hcons, redrawFrame, logIfErr,
        hres]
  · simp [window_event, hw, hs, hctx, hglow, hcons, redrawFrame, hsurf, hglc,
      logIfErr]
    refine ⟨?_, ?_, ?_, ?_⟩ <;> (split <;> simp)
  · simp [window_event, hw, hs, hctx, hglow, hcons, redrawFrame]
  · simp [window_event, hw, hs, hctx, hglow, hcons, redrawFrame, hsurf, hglc]
  · simp [window_event, hw, hs, hctx, hglow, hcons, redrawFrame]
  · intro herr
    match hres : (spec.on_resize r.app w h).2 with
    | none => simp [hres] at herr
    | some m =>
      simp [window_event, hw, hs, hctx, hglow, hcons, hwz, hhz, hsurf, hglc,
        logIfErr, hres]
  · intro herr
    match hres : (spec.initializeApp r0.app).2 with
    | none => simp [hres] at herr
    | some m => simp [resumed, hw0, logIfErr, hres]
  · simp [resumed, hw0]
  · simp [resumed, hw0]

/-- Witness for C7: an app all of whose hooks fail, run on a frame, a
non-zero resize, and a first resume. -/
theorem hook_errors_c7_witness :
    readyRunner.window = some () ∧ readyRunner.egui_state = some () ∧
    readyRunner.egui_ctx = true ∧ readyRunner.egui_glow = true ∧
    (∀ ev, (passUi.on_window_event () ev).2 = false) ∧
    readyRunner.gl_surface.isSome = true ∧ readyRunner.gl_context = true ∧
    (1024 : Nat) ≠ 0 ∧ (768 : Nat) ≠ 0 ∧ freshRunner.window = none ∧
    ((((errApp.update () (sampleEnv.now - readyRunner.last_frame_time)).2.isSome
          = true →
        Op.logged "Update error"
          ∈ (window_event errApp passUi sampleEnv readyRunner
              PlatformEvent.redrawRequested).2)
      ∧ ((errApp.render (errApp.update ()
            (sampleEnv.now - readyRunner.last_frame_time)).1
            (sampleEnv.now - readyRunner.start_time)).2.isSome = true →
        Op.logged "Render error"
          ∈ (window_event errApp passUi sampleEnv readyRunner
              PlatformEvent.redrawRequested).2)
      ∧ ((errApp.render_ui
            (errApp.render (errApp.update ()
              (sampleEnv.now - readyRunner.last_frame_time)).1
              (sampleEnv.now - readyRunner.start_time)).1).2.isSome = true →
        Op.logged "UI render error"
          ∈ (window_event errApp passUi sampleEnv readyRunner
              PlatformEvent.redrawRequested).2)
      ∧ Op.exitLoop
          ∉ (window_event errApp passUi sampleEnv readyRunner
              PlatformEvent.redrawRequested).2
      ∧ Op.paintPrimitives
          ∈ (window_event errApp passUi sampleEnv readyRunner
              PlatformEvent.redrawRequested).2
      ∧ Op.swapBuffers
          ∈ (window_event errApp passUi sampleEnv readyRunner
              PlatformEvent.redrawRequested).2
      ∧ Op.requestRedraw
          ∈ (window_event errApp passUi sampleEnv readyRunner
              PlatformEvent.redrawRequested).2)
    ∧ ((errApp.on_resize () 1024 768).2.isSome = true →
        Op.logged "Resize error"
          ∈ (window_event errApp passUi sampleEnv readyRunner
              (PlatformEvent.resized 1024 768)).2)
    ∧ (((errApp.initializeApp ()).2.isSome = true →
        Op.logged "Initialization error"
          ∈ (resumed errApp sampleResumeEnv freshRunner).2)
      ∧ Op.appOnResize sampleResumeEnv.winSize.1 sampleResumeEnv.winSize.2
          ∈ (resumed errApp sampleResumeEnv freshRunner).2
      ∧ (resumed errApp sampleResumeEnv freshRunner).1.window = some ())) :=
  ⟨rfl, rfl, rfl, rfl, fun _ => rfl, rfl, rfl, by decide, by decide, rfl,
    hook_errors_c7 errApp passUi sampleEnv sampleResumeEnv readyRunner
      freshRunner () 1024 768 rfl rfl rfl rfl (fun _ => rfl) rfl rfl
      (by decide) (by decide) rfl⟩

/-- C8: after a successful link, every retained intermediate shader id
is deleted and the retained list is cleared; on link failure nothing is
deleted, the retained list is kept, and a descriptive error is returned
carrying the GPU info log when its reported length is positive and the
distinct no-error-message text when it is zero. -/
theorem shader_link_c8 (env : LinkEnv) (p : ShaderProgram) :
    (env.linkStatus = true →
      link env p = ({ p with shader_ids := [] }, p.shader_ids,
        Except.ok ()))
    ∧ (env.linkStatus = false → 0 < env.infoLogLen →
      link env p = (p, [],
        Except.error ("Shader program linking failed:\n" ++ env.infoLog)))
    ∧ (env.linkStatus = false → env.infoLogLen = 0 →
      link env p = (p, [],
        Except.error "Shader program linking failed with no error message")) := by
  refine ⟨?_, ?_, ?_⟩
  · intro hok
    simp [link, check_link_status, hok]
  · intro hfail hlen
    simp [link, check_link_status, hfail, hlen]
  · intro hfail hlen
    simp [link, check_link_status, hfail, hlen]

/-- Witness for C8 at a program retaining shader ids [4, 5], evaluating
the successful-link case. -/
theorem shader_link_c8_witness :
    ((LinkEnv.mk true 0 "").linkStatus = true →
      link (LinkEnv.mk true 0 "") ⟨7, [4, 5]⟩
        = ({ (⟨7, [4, 5]⟩ : ShaderProgram) with shader_ids := [] },
            ([4, 5] : List Nat), Except.ok ()))
    ∧ ((LinkEnv.mk true 0 "").linkStatus = false →
        0 < (LinkEnv.mk true 0 "").infoLogLen →
      link (LinkEnv.mk true 0 "") ⟨7, [4, 5]⟩
        = (⟨7, [4, 5]⟩, [], Except.error
            ("Shader program linking failed:\n"
              ++ (LinkEnv.mk true 0 "").infoLog)))
    ∧ ((LinkEnv.mk true 0 "").linkStatus = false →
        (LinkEnv.mk true 0 "").infoLogLen = 0 →
      link (LinkEnv.mk true 0 "") ⟨7, [4, 5]⟩
        = (⟨7, [4, 5]⟩, [], Except.error
            "Shader program linking failed with no error message")) :=
  shader_link_c8 (LinkEnv.mk true 0 "") ⟨7, [4, 5]⟩

/-- C9: the window, GL context, GL surface, overlay painter and UI
state are created at most once per run: when the window is absent, a
resumed signal creates them all and calls App.initialize then
App.on_resize with the initial size; when the window already exists,
the handler returns immediately with the runner state completely
unchanged and no operation issued. -/
theorem resumed_once_c9 {α υ : Type} (spec : AppSpec α) (env : ResumeEnv υ)
    (r : AppRunner α υ) :
    (r.window.isSome = true → resumed spec env r = (r, []))
    ∧ (r.window = none →
      (resumed spec env r).1.window = some ()
      ∧ (resumed spec env r).1.gl_context = true
      ∧ (resumed spec env r).1.gl_surface = some env.winSize
      ∧ (resumed spec env r).1.egui_glow = true
      ∧ (resumed spec env r).1.egui_state = some env.uiInit
      ∧ (resumed spec env r).1.egui_ctx = true
      ∧ ((resumed spec env r).2).filterMap lifeStep
          = [LifeStep.initStep,
              LifeStep.onResize env.winSize.1 env.winSize.2]) := by
  constructor
  · intro hsome
    simp [resumed, hsome]
  · intro hnone
    simp [resumed, hnone, lifeStep_logIfErr, lifeStep]

/-- Witness for C9, covering both the fresh and the already-resumed
runner through the same concrete instantiation. -/
theorem resumed_once_c9_witness :
    (freshRunner.window.isSome = true →
      resumed okApp sampleResumeEnv freshRunner = (freshRunner, []))
    ∧ (freshRunner.window = none →
      (resumed okApp sampleResumeEnv freshRunner).1.window = some ()
      ∧ (resumed okApp sampleResumeEnv freshRunner).1.gl_context = true
      ∧ (resumed okApp sampleResumeEnv freshRunner).1.gl_surface
          = some sampleResumeEnv.winSize
      ∧ (resumed okApp sampleResumeEnv freshRunner).1.egui_glow = true
      ∧ (resumed okApp sampleResumeEnv freshRunner).1.egui_state
          = some sampleResumeEnv.uiInit
      ∧ (resumed okApp sampleResumeEnv freshRunner).1.egui_ctx = true
      ∧ ((resumed okApp sampleResumeEnv freshRunner).2).filterMap lifeStep
          = [LifeStep.initStep,
              LifeStep.onResize sampleResumeEnv.winSize.1
                sampleResumeEnv.winSize.2]) :=
  resumed_once_c9 okApp sampleResumeEnv freshRunner

end GLApp
